import Mathlib

/-!
Verification development for the streaming session manager of
homebridge-camera-ffmpeg (src/streamingDelegate.ts).

The TypeScript source is shallowly embedded: JS objects become structures,
the `Record<string, T>` session tables become functions `String → Option T`
(a JS object holds at most one entry per key), JS numbers on these code
paths are natural numbers, and JS `undefined`/absent optional fields are
`Option`. JS truthiness of optional numeric config fields is modelled by
`0 = unset` (both `undefined` and `0` are falsy in JS and both skip the
guarded branches in the source). A synchronously thrown JS exception is
modelled with `Except`.
-/

namespace CameraFfmpeg

/-- VideoConfig from src/configTypes.ts, as the spec (section 3) lists it and as
src/streamingDelegate.ts consumes it. Field notes: `maxBitrate`, `minBitrate`
and `packetSize` are optional in the config and are only read behind JS
truthiness guards, so `0` models the unset value; `videoFilter`, `vcodec`,
`mapvideo`, `mapaudioCfg` (source name `mapaudio`), `additionalCommandline`,
`stillImageSource` are optional strings; `preserveRatioMode` (source name
`preserveRatio`) is the aspect mode; `audioEnabled` (source name `audio`)
enables the audio segment. -/
structure VideoConfig where
  source : String
  stillImageSource : Option String
  maxWidth : Nat
  maxHeight : Nat
  maxFPS : Nat
  maxBitrate : Nat
  minBitrate : Nat
  packetSize : Nat
  vcodec : Option String
  videoFilter : Option String
  hflip : Bool
  vflip : Bool
  preserveRatioMode : Option String
  mapvideo : Option String
  mapaudioCfg : Option String
  additionalCommandline : Option String
  audioEnabled : Bool
  debug : Bool
  deriving DecidableEq

/-- ResolutionInfo from src/streamingDelegate.ts lines 47-51. -/
structure ResolutionInfo where
  width : Nat
  height : Nat
  videoFilter : String
  deriving DecidableEq

/-- Width/height pair of a SnapshotRequest or VideoInfo, the only fields
determineResolution reads from its request argument. -/
structure SizeRequest where
  width : Nat
  height : Nat
  deriving DecidableEq

/-- JS `a || b` for an optional string `a` (both `undefined` and the empty
string are falsy). -/
def jsOr (o : Option String) (d : String) : String :=
  match o with
  | some s => if s = "" then d else s
  | none => d

/-- JS `a || b` for an optional numeric config field modelled as Nat with
`0 = unset` (both `undefined` and `0` are falsy). -/
def jsOrNat (n : Nat) (d : Nat) : Nat :=
  if n = 0 then d else n

/-- Line 120/121 of src/streamingDelegate.ts:
`request.width > maxWidth ? maxWidth : request.width`. -/
def clampWidth (cfg : VideoConfig) (w : Nat) : Nat :=
  if w > cfg.maxWidth then cfg.maxWidth else w

/-- Line 121 of src/streamingDelegate.ts, the height clamp. -/
def clampHeight (cfg : VideoConfig) (h : Nat) : Nat :=
  if h > cfg.maxHeight then cfg.maxHeight else h

/-- Line 265 of src/streamingDelegate.ts:
`request.video.fps > maxFPS ? maxFPS : request.video.fps`. -/
def clampFps (cfg : VideoConfig) (fps : Nat) : Nat :=
  if fps > cfg.maxFPS then cfg.maxFPS else fps

/-- Lines 123-134 of src/streamingDelegate.ts: the `resolution` string chosen
by the `switch (this.videoConfig.preserveRatio)`. -/
def resolutionDirective (cfg : VideoConfig) (width height : Nat) : String :=
  if cfg.preserveRatioMode = some ("W") then toString width ++ ":-1"
  else if cfg.preserveRatioMode = some ("H") then "-1:" ++ toString height
  else toString width ++ ":" ++ toString height

/-- Lines 137-138 of src/streamingDelegate.ts: `videoFilter || null` maps the
empty string and an absent filter to null, and a null/empty filter is replaced
by `scale=<resolution>`; any other configured value is used verbatim. -/
def effectiveFilter (cfg : VideoConfig) (width height : Nat) : String :=
  match cfg.videoFilter with
  | some s => if s = "" then "scale=" ++ resolutionDirective cfg width height else s
  | none => "scale=" ++ resolutionDirective cfg width height

/-- Lines 141-146 of src/streamingDelegate.ts: the flip tokens pushed onto the
`vf` array, in push order. Note the source pushes the token `hflip` under the
`vflip` flag and the token `vflip` under the `hflip` flag. -/
def flipList (cfg : VideoConfig) : List String :=
  (if cfg.vflip then [("hflip")] else []) ++ (if cfg.hflip then [("vflip")] else [])

/-- Lines 140-148 of src/streamingDelegate.ts: the full `vf` array. When the
effective filter is the literal `none`, nothing is pushed at all. -/
def vfList (cfg : VideoConfig) (width height : Nat) : List String :=
  if effectiveFilter cfg width height = ("none") then []
  else flipList cfg ++ [effectiveFilter cfg width height]

/-- JS `Array.prototype.join(',')`. -/
def joinComma : List String → String
  | [] => ""
  | [s] => s
  | s :: rest => s ++ "," ++ joinComma rest

/-- determineResolution, src/streamingDelegate.ts lines 119-151. -/
def determineResolution (cfg : VideoConfig) (request : SizeRequest) : ResolutionInfo :=
  { width := clampWidth cfg request.width
    height := clampHeight cfg request.height
    videoFilter :=
      joinComma (vfList cfg (clampWidth cfg request.width) (clampHeight cfg request.height)) }

/-- Lines 272-277 of src/streamingDelegate.ts: the video bitrate clamp. The
`else if` gives the max clamp precedence over the min clamp. -/
def clampVideoBitrate (cfg : VideoConfig) (requested : Nat) : Nat :=
  if cfg.maxBitrate ≠ 0 ∧ requested > cfg.maxBitrate then cfg.maxBitrate
  else if cfg.minBitrate ≠ 0 ∧ requested < cfg.minBitrate then cfg.minBitrate
  else requested

/-- Lines 278-281 of src/streamingDelegate.ts: the audio bitrate clamp; only a
downward clamp against `maxBitrate`, no minimum. -/
def clampAudioBitrate (cfg : VideoConfig) (requested : Nat) : Nat :=
  if cfg.maxBitrate ≠ 0 ∧ requested > cfg.maxBitrate then cfg.maxBitrate else requested

/-- Node Buffer byte-by-byte base64 alphabet. -/
def b64Char (n : Nat) : Char :=
  (("ABCDEFGHIJKLMNOPQRSTUVWXYZabcdefghijklmnopqrstuvwxyz0123456789+/").toList).getD n 'A'

/-- Node `Buffer.toString('base64')` on a byte list (bytes < 256). -/
def base64Encode : List Nat → String
  | [] => ""
  | [a] => String.mk [b64Char (a / 4 % 64), b64Char (a % 4 * 16)] ++ "=="
  | [a, b] =>
      String.mk [b64Char (a / 4 % 64), b64Char (a % 4 * 16 + b / 16 % 16), b64Char (b % 16 * 4)]
        ++ "="
  | a :: b :: c :: rest =>
      String.mk
        [b64Char (a / 4 % 64), b64Char (a % 4 * 16 + b / 16 % 16),
         b64Char (b % 16 * 4 + c / 64 % 4), b64Char (c % 64)] ++ base64Encode rest

/-- SessionInfo from src/streamingDelegate.ts lines 31-45. SRTP material is the
concatenated key+salt byte list; crypto suites are their numeric identifiers. -/
structure SessionInfo where
  address : String
  videoPort : Nat
  videoReturnPort : Nat
  videoCryptoSuite : Nat
  videoSRTP : List Nat
  videoSSRC : Nat
  audioPort : Nat
  audioReturnPort : Nat
  audioCryptoSuite : Nat
  audioSRTP : List Nat
  audioSSRC : Nat
  deriving DecidableEq

/-- Modelled from the spec: the Process Supervisor (spec section 4.4, the
FfmpegProcess class of src/ffmpeg.ts, which is not under src/). The delegate
only ever calls its `stop()` inside a try/catch, so the single observable the
session tables depend on is whether that call raises (spec section 7
acknowledges that errors can be encountered while stopping a session). -/
structure FfmpegProc where
  stopThrows : Bool
  deriving DecidableEq

/-- The two session tables of StreamingDelegate (src/streamingDelegate.ts
lines 63-64). A JS `Record<string, T>` holds at most one entry per key, so a
key having `some` value is exactly the "exactly one entry" of the spec. -/
structure DelegateState where
  pendingSessions : String → Option SessionInfo
  ongoingSessions : String → Option FfmpegProc

/-- State with both tables empty, the state of a fresh StreamingDelegate. -/
def emptyDelegateState : DelegateState :=
  { pendingSessions := fun _ => none, ongoingSessions := fun _ => none }

/-- The fields of request.video read by startStream (src/streamingDelegate.ts
lines 262-302). -/
structure VideoRequestInfo where
  width : Nat
  height : Nat
  fps : Nat
  max_bit_rate : Nat
  pt : Nat
  deriving DecidableEq

/-- The fields of request.audio read by startStream (src/streamingDelegate.ts
lines 317-328); field name `audioInfo` is used on the request because the
source field name `audio` is unavailable here. -/
structure AudioRequestInfo where
  max_bit_rate : Nat
  sample_rate : Nat
  pt : Nat
  deriving DecidableEq

/-- StartStreamRequest as consumed by startStream. -/
structure StartRequest where
  sessionID : String
  video : VideoRequestInfo
  audioInfo : AudioRequestInfo
  deriving DecidableEq

/-- The `ffmpegVideoArgs` constant of startStream, src/streamingDelegate.ts
lines 291-302, built with the defaults of lines 264-269. -/
def ffmpegVideoArgs (cfg : VideoConfig) (request : StartRequest) : String :=
  let vcodec := jsOr cfg.vcodec ("libx264")
  let fps := clampFps cfg request.video.fps
  let additionalCommandline := jsOr cfg.additionalCommandline ("-preset ultrafast -tune zerolatency")
  let resolution := determineResolution cfg { width := request.video.width, height := request.video.height }
  let videoBitrate := clampVideoBitrate cfg request.video.max_bit_rate
  " -map " ++ jsOr cfg.mapvideo ("0:0") ++
  " -vcodec " ++ vcodec ++
  " -pix_fmt yuv420p" ++
  " -r " ++ toString fps ++
  " -f rawvideo" ++
  " " ++ additionalCommandline ++
  (if vcodec ≠ ("copy") ∧ resolution.videoFilter ≠ "" then " -vf " ++ resolution.videoFilter else "") ++
  " -b:v " ++ toString videoBitrate ++ "k" ++
  " -bufsize " ++ toString (2 * videoBitrate) ++ "k" ++
  " -maxrate " ++ toString videoBitrate ++ "k" ++
  " -payload_type " ++ toString request.video.pt

/-- The `ffmpegVideoStream` constant of startStream, src/streamingDelegate.ts
lines 304-310; `mtu` is `packetSize || 1316` from line 266. -/
def ffmpegVideoStream (cfg : VideoConfig) (sessionInfo : SessionInfo) : String :=
  " -ssrc " ++ toString sessionInfo.videoSSRC ++
  " -f rtp" ++
  " -srtp_out_suite AES_CM_128_HMAC_SHA1_80" ++
  " -srtp_out_params " ++ base64Encode sessionInfo.videoSRTP ++
  " srtp://" ++ sessionInfo.address ++ ":" ++ toString sessionInfo.videoPort ++
  "?rtcpport=" ++ toString sessionInfo.videoPort ++ "&localrtcpport=" ++ toString sessionInfo.videoPort ++
  "&pkt_size=" ++ toString (jsOrNat cfg.packetSize 1316)

/-- The `ffmpegAudioArgs` constant of startStream, src/streamingDelegate.ts
lines 318-328. -/
def ffmpegAudioArgs (cfg : VideoConfig) (request : StartRequest) : String :=
  let audioBitrate := clampAudioBitrate cfg request.audioInfo.max_bit_rate
  " -map " ++ jsOr cfg.mapaudioCfg ("0:1") ++
  " -acodec libfdk_aac" ++
  " -profile:a aac_eld" ++
  " -flags +global_header" ++
  " -f null" ++
  " -ar " ++ toString request.audioInfo.sample_rate ++ "k" ++
  " -b:a " ++ toString audioBitrate ++ "k" ++
  " -bufsize " ++ toString audioBitrate ++ "k" ++
  " -ac 1" ++
  " -payload_type " ++ toString request.audioInfo.pt

/-- The `ffmpegAudioStream` constant of startStream, src/streamingDelegate.ts
lines 330-336; the packet size is the literal 188. -/
def ffmpegAudioStream (sessionInfo : SessionInfo) : String :=
  " -ssrc " ++ toString sessionInfo.audioSSRC ++
  " -f rtp" ++
  " -srtp_out_suite AES_CM_128_HMAC_SHA1_80" ++
  " -srtp_out_params " ++ base64Encode sessionInfo.audioSRTP ++
  " srtp://" ++ sessionInfo.address ++ ":" ++ toString sessionInfo.audioPort ++
  "?rtcpport=" ++ toString sessionInfo.audioPort ++ "&localrtcpport=" ++ toString sessionInfo.audioPort ++
  "&pkt_size=188"

/-- The complete `fcmd` of startStream, src/streamingDelegate.ts lines
283-344: source, video args, video stream, optionally the audio segment
(line 317, `if (this.videoConfig.audio)`), optionally the debug directive. -/
def buildStartCommand (cfg : VideoConfig) (request : StartRequest) (sessionInfo : SessionInfo) : String :=
  let fcmd := cfg.source ++ ffmpegVideoArgs cfg request ++ ffmpegVideoStream cfg sessionInfo
  let fcmd2 :=
    if cfg.audioEnabled then fcmd ++ ffmpegAudioArgs cfg request ++ ffmpegAudioStream sessionInfo
    else fcmd
  if cfg.debug then fcmd2 ++ " -loglevel level+verbose" else fcmd2

/-- JS runtime exceptions that the embedded code can raise synchronously. -/
inductive JsError where
  | typeError
  deriving DecidableEq

/-- startStream, src/streamingDelegate.ts lines 262-351. Line 263 looks the
session up in the pending table with no guard; when the entry is absent the
construction of `ffmpegVideoStream` at line 305 reads `sessionInfo.videoSSRC`
of `undefined` and throws a TypeError before either table is touched (the
table updates are lines 349-350). On success the spawned supervisor `proc`
(spawn itself is external) is stored in the ongoing table and the pending
entry is deleted. -/
def startStream (cfg : VideoConfig) (s : DelegateState) (request : StartRequest)
    (proc : FfmpegProc) : Except JsError (DelegateState × String) :=
  match s.pendingSessions request.sessionID with
  | none => .error .typeError
  | some sessionInfo =>
      .ok
        ({ pendingSessions := fun k => if k = request.sessionID then none else s.pendingSessions k
           ongoingSessions := fun k => if k = request.sessionID then some proc else s.ongoingSessions k },
         buildStartCommand cfg request sessionInfo)

/-- stopStream, src/streamingDelegate.ts lines 371-384. The whole body is in a
try/catch whose catch only logs, so the function never propagates an error;
that is why it is total here. The `delete this.ongoingSessions[sessionId]` at
line 379 sits after the `ffmpegProcess.stop()` call inside the try, so when
`stop()` throws the delete is skipped and the entry survives. The pending
table is never touched. The second component counts the `stop()` invocations
made by this call (0 or 1). -/
def stopStream (s : DelegateState) (sessionId : String) : DelegateState × Nat :=
  match s.ongoingSessions sessionId with
  | some ffmpegProcess =>
      if ffmpegProcess.stopThrows then (s, 1)
      else
        ({ s with ongoingSessions := fun k => if k = sessionId then none else s.ongoingSessions k }, 1)
  | none =>
      ({ s with ongoingSessions := fun k => if k = sessionId then none else s.ongoingSessions k }, 0)

/-- One entry of Node `os.networkInterfaces()[name]` as read by getIpAddress
(src/streamingDelegate.ts lines 192-203): address string, family string
(`IPv4` or `IPv6`), internal flag. -/
structure NetAddrInfo where
  address : String
  family : String
  internal : Bool
  deriving DecidableEq

/-- The network environment getIpAddress queries: the default outbound
interface name (`networkInterfaceDefault()` of the systeminformation package)
and `os.networkInterfaces()` as a partial map from interface name to its
address list. -/
structure NetEnv where
  defaultInterfaceName : String
  interfaces : String → Option (List NetAddrInfo)

/-- The `addressVersion` argument of getIpAddress. -/
inductive AddrVersion where
  | ipv4
  | ipv6
  deriving DecidableEq

/-- Line 196 of src/streamingDelegate.ts: the preferred family string. -/
def famString : AddrVersion → String
  | .ipv6 => "IPv6"
  | .ipv4 => "IPv4"

/-- Lines 193-195 of src/streamingDelegate.ts: filter the internal addresses
away. -/
def nonInternal (l : List NetAddrInfo) : List NetAddrInfo :=
  l.filter (fun info => !info.internal)

/-- Lines 197-199 of src/streamingDelegate.ts:
`externalInfo?.find(family match) || externalInfo?.[0]`. -/
def pickAddress (ext : List NetAddrInfo) (fam : String) : Option NetAddrInfo :=
  match ext.find? (fun info => info.family == fam) with
  | some info => some info
  | none => ext.head?

/-- The error message thrown at line 201 of src/streamingDelegate.ts. -/
def addrErrMsg (ifName : String) : String :=
  "Unable to get network address for \"" ++ ifName ++ "\"!"

/-- getIpAddress, src/streamingDelegate.ts lines 188-204. A falsy (absent or
empty) interface name argument is replaced by the default outbound interface;
an unknown interface or one with no non-internal address throws. -/
def getIpAddress (env : NetEnv) (addressVersion : AddrVersion)
    (interfaceName : Option String) : Except String String :=
  let ifName :=
    match interfaceName with
    | none => env.defaultInterfaceName
    | some s => if s = "" then env.defaultInterfaceName else s
  match env.interfaces ifName with
  | none => .error (addrErrMsg ifName)
  | some l =>
      match pickAddress (nonInternal l) (famString addressVersion) with
      | some info => .ok info.address
      | none => .error (addrErrMsg ifName)

/-- The address-resolution part of prepareStream, src/streamingDelegate.ts
lines 228-238: try the configured interface; on failure, when a (truthy)
interface preference was configured, log a warning and retry with the default
interface, otherwise rethrow. The Bool of the result records whether the
warning was logged. -/
def prepareStreamAddress (env : NetEnv) (addressVersion : AddrVersion)
    (interfaceNameCfg : Option String) : Except String (String × Bool) :=
  match getIpAddress env addressVersion interfaceNameCfg with
  | .ok a => .ok (a, false)
  | .error e =>
      match interfaceNameCfg with
      | some s =>
          if s = "" then .error e
          else
            match getIpAddress env addressVersion none with
            | .ok a => .ok (a, true)
            | .error e2 => .error e2
      | none => .error e

/-- The fields of a PrepareStreamRequest read by prepareStream
(src/streamingDelegate.ts lines 206-226). -/
structure HapPrepareRequest where
  sessionID : String
  targetAddress : String
  addressVersion : AddrVersion
  videoPort : Nat
  videoCryptoSuite : Nat
  videoSrtpKey : List Nat
  videoSrtpSalt : List Nat
  audioPort : Nat
  audioCryptoSuite : Nat
  audioSrtpKey : List Nat
  audioSrtpSalt : List Nat
  deriving DecidableEq

/-- PrepareStreamResponse, src/streamingDelegate.ts lines 240-256: the
advertised address, the locally allocated return ports and the generated
synchronisation sources (the srtp key/salt are echoed from the request). -/
structure HapPrepareResponse where
  address : String
  videoResponsePort : Nat
  videoResponseSSRC : Nat
  audioResponsePort : Nat
  audioResponseSSRC : Nat
  deriving DecidableEq

/-- prepareStream, src/streamingDelegate.ts lines 206-260. The two return
ports and the two synchronisation sources are allocated by external calls
(`getPort()` and `generateSynchronisationSource()`), so they are parameters.
The SessionInfo is built from the request, then the address is resolved (a
resolution failure with no fallback propagates before the pending table is
touched), then the pending entry is written and the response returned. -/
def prepareStream (env : NetEnv) (interfaceNameCfg : Option String) (s : DelegateState)
    (request : HapPrepareRequest)
    (videoReturnPort audioReturnPort videoSSRC audioSSRC : Nat) :
    Except String (DelegateState × HapPrepareResponse) :=
  let sessionInfo : SessionInfo :=
    { address := request.targetAddress
      videoPort := request.videoPort
      videoReturnPort := videoReturnPort
      videoCryptoSuite := request.videoCryptoSuite
      videoSRTP := request.videoSrtpKey ++ request.videoSrtpSalt
      videoSSRC := videoSSRC
      audioPort := request.audioPort
      audioReturnPort := audioReturnPort
      audioCryptoSuite := request.audioCryptoSuite
      audioSRTP := request.audioSrtpKey ++ request.audioSrtpSalt
      audioSSRC := audioSSRC }
  match prepareStreamAddress env request.addressVersion interfaceNameCfg with
  | .error e => .error e
  | .ok (currentAddress, _) =>
      .ok
        ({ s with
            pendingSessions := fun k =>
              if k = request.sessionID then some sessionInfo else s.pendingSessions k },
         { address := currentAddress
           videoResponsePort := videoReturnPort
           videoResponseSSRC := videoSSRC
           audioResponsePort := audioReturnPort
           audioResponseSSRC := audioSSRC })

/-- The three request kinds dispatched by handleStreamRequest
(src/streamingDelegate.ts lines 353-369). -/
inductive StreamRequestKind where
  | start (request : StartRequest)
  | reconfigure
  | stop (sessionID : String)

/-- handleStreamRequest, src/streamingDelegate.ts lines 353-369: START routes
straight into startStream with no pending-table guard (so its TypeError
propagates), RECONFIGURE only acknowledges, STOP calls stopStream and
acknowledges. The optional String is the command of a started stream. -/
def handleStreamRequest (cfg : VideoConfig) (s : DelegateState) (kind : StreamRequestKind)
    (proc : FfmpegProc) : Except JsError (DelegateState × Option String) :=
  match kind with
  | .start request => (startStream cfg s request proc).map (fun r => (r.1, some r.2))
  | .reconfigure => .ok (s, none)
  | .stop sessionID => .ok ((stopStream s sessionID).1, none)

/-- The observable behavior of one spawned snapshot process, as wired up in
handleSnapshotRequest (src/streamingDelegate.ts lines 165-185): whether
`spawn` threw synchronously, the chunks the stdout data handler accumulates,
whether an async `error` event fired (its handler only logs), whether the
`close` event fired, and the exit code (which the close handler never reads). -/
structure SnapshotProcBehavior where
  spawnThrow : Option String
  stdoutChunks : List (List Nat)
  errorEvent : Option String
  closes : Bool
  exitCode : Option Int
  deriving DecidableEq

/-- How the snapshot completion callback ends up being invoked. -/
inductive SnapshotCallbackResult where
  | notCalled
  | withError (err : String)
  | success (buf : List Nat)
  deriving DecidableEq

/-- handleSnapshotRequest, src/streamingDelegate.ts lines 153-186, reduced to
its callback discipline: a synchronous spawn exception reaches the callback
as an error (line 184); otherwise the callback fires with a success result
and the accumulated stdout bytes when `close` fires (line 180), regardless of
the exit code or of any `error` event (whose handler at line 176 only logs);
when `close` never fires the callback is never invoked. -/
def handleSnapshotRequest (beh : SnapshotProcBehavior) : SnapshotCallbackResult :=
  match beh.spawnThrow with
  | some err => .withError err
  | none => if beh.closes then .success beh.stdoutChunks.flatten else .notCalled

/-- A plain camera configuration: required fields set, optional fields unset. -/
def baseVideoConfig : VideoConfig :=
  { source := ("-i rtsp://cam.local/stream")
    stillImageSource := none
    maxWidth := 1280
    maxHeight := 720
    maxFPS := 30
    maxBitrate := 0
    minBitrate := 0
    packetSize := 0
    vcodec := none
    videoFilter := none
    hflip := false
    vflip := false
    preserveRatioMode := none
    mapvideo := none
    mapaudioCfg := none
    additionalCommandline := none
    audioEnabled := false
    debug := false }

/-- A supervisor whose stop() returns normally. -/
def procA : FfmpegProc := { stopThrows := false }

/-- A supervisor whose stop() raises (spec section 7 contemplates errors while
stopping a session; stopStream wraps the call in try/catch for that reason). -/
def procB : FfmpegProc := { stopThrows := true }

/-- A small network environment: default interface eth0 with one external
IPv4 address. -/
def demoEnv : NetEnv :=
  { defaultInterfaceName := ("eth0")
    interfaces := fun n =>
      if n = ("eth0") then
        some [{ address := ("192.168.1.20"), family := ("IPv4"), internal := false }]
      else none }

/-- A concrete setup request for session S1. -/
def demoPrepareRequest : HapPrepareRequest :=
  { sessionID := ("S1")
    targetAddress := ("192.168.1.50")
    addressVersion := .ipv4
    videoPort := 51000
    videoCryptoSuite := 1
    videoSrtpKey := [1, 2]
    videoSrtpSalt := [3, 4]
    audioPort := 52000
    audioCryptoSuite := 1
    audioSrtpKey := [5, 6]
    audioSrtpSalt := [7, 8] }

/-- The state after the S1 setup request against the fresh delegate. -/
def c1AfterSetup : DelegateState :=
  match prepareStream demoEnv none emptyDelegateState demoPrepareRequest 61000 61001 1111 2222 with
  | .ok r => r.1
  | .error _ => emptyDelegateState

/-- The response of the S1 setup request against the fresh delegate. -/
def c1SetupResponse : HapPrepareResponse :=
  match prepareStream demoEnv none emptyDelegateState demoPrepareRequest 61000 61001 1111 2222 with
  | .ok r => r.2
  | .error _ => { address := "", videoResponsePort := 0, videoResponseSSRC := 0,
                  audioResponsePort := 0, audioResponseSSRC := 0 }

/-- The SessionInfo c1AfterSetup holds for S1. -/
def demoSessionInfo : SessionInfo :=
  { address := ("192.168.1.50")
    videoPort := 51000
    videoReturnPort := 61000
    videoCryptoSuite := 1
    videoSRTP := [1, 2, 3, 4]
    videoSSRC := 1111
    audioPort := 52000
    audioReturnPort := 61001
    audioCryptoSuite := 1
    audioSRTP := [5, 6, 7, 8]
    audioSSRC := 2222 }

/-- A concrete start request for session S1. -/
def demoStartRequest : StartRequest :=
  { sessionID := ("S1")
    video := { width := 1920, height := 1080, fps := 30, max_bit_rate := 299, pt := 99 }
    audioInfo := { max_bit_rate := 24, sample_rate := 16, pt := 110 } }

/-- State holding a pending and an ongoing (well-behaved) entry for S1. -/
def c1RunState : DelegateState :=
  { pendingSessions := fun k => if k = ("S1") then some demoSessionInfo else none
    ongoingSessions := fun k => if k = ("S1") then some procA else none }

/-- The state after a successful S1 start against c1RunState. -/
def c1StartedState : DelegateState :=
  match startStream baseVideoConfig c1RunState demoStartRequest procA with
  | .ok r => r.1
  | .error _ => emptyDelegateState

/-- The command produced by the successful S1 start against c1RunState. -/
def c1StartedCmd : String :=
  match startStream baseVideoConfig c1RunState demoStartRequest procA with
  | .ok r => r.2
  | .error _ => ""

/-- State whose ongoing S1 supervisor raises from stop(). -/
def c8ThrowState : DelegateState :=
  { pendingSessions := fun _ => none
    ongoingSessions := fun k => if k = ("S1") then some procB else none }

/-- State whose ongoing S1 supervisor stops cleanly. -/
def c8OkState : DelegateState :=
  { pendingSessions := fun _ => none
    ongoingSessions := fun k => if k = ("S1") then some procA else none }

/-- A snapshot process that spawned, produced no stdout, fired an error event
and closed with a nonzero exit code: a failed capture. -/
def c3FailBehavior : SnapshotProcBehavior :=
  { spawnThrow := none
    stdoutChunks := []
    errorEvent := some ("spawn error: ffmpeg exited abnormally")
    closes := true
    exitCode := some 1 }

/-- A snapshot attempt whose spawn call threw synchronously. -/
def c3SpawnThrowBehavior : SnapshotProcBehavior :=
  { spawnThrow := some ("spawn EACCES")
    stdoutChunks := []
    errorEvent := none
    closes := false
    exitCode := none }

/-- A snapshot process that failed to spawn asynchronously: the error event
fired and close never fired (Node does not emit close when spawn fails). -/
def c3NoCloseBehavior : SnapshotProcBehavior :=
  { spawnThrow := none
    stdoutChunks := []
    errorEvent := some ("spawn ENOENT")
    closes := false
    exitCode := none }

/-- A successful snapshot: two stdout chunks and a clean close. -/
def c3OkBehavior : SnapshotProcBehavior :=
  { spawnThrow := none
    stdoutChunks := [[255, 216], [255, 217]]
    errorEvent := none
    closes := true
    exitCode := some 0 }

/-- Environment whose only interface is unknown to the OS. -/
def c9EmptyEnv : NetEnv :=
  { defaultInterfaceName := ("eth9")
    interfaces := fun _ => none }

/-- Configuration with the max bitrate cap below the min bitrate floor; both
fields are accepted by the config schema. -/
def c6Config : VideoConfig :=
  { baseVideoConfig with maxBitrate := 2, minBitrate := 10 }

/-- Configuration with only a max bitrate cap. -/
def c6MaxConfig : VideoConfig :=
  { baseVideoConfig with maxBitrate := 2000 }

/-- Configuration with only a min bitrate floor. -/
def c6MinConfig : VideoConfig :=
  { baseVideoConfig with minBitrate := 500 }

/-- Configuration with only the vflip flag set and a custom filter. -/
def c4Config : VideoConfig :=
  { baseVideoConfig with vflip := true, videoFilter := some ("crop=100:100") }

/-- Configuration with an explicit custom filter override. -/
def c5OverrideConfig : VideoConfig :=
  { baseVideoConfig with videoFilter := some ("crop=16:9"), hflip := true }

/-- Configuration with the none-sentinel filter and a flip flag set. -/
def c5NoneConfig : VideoConfig :=
  { baseVideoConfig with videoFilter := some ("none"), hflip := true, vflip := true }

/-- Configuration for the audio-enabled command-line build. -/
def c10Config : VideoConfig :=
  { baseVideoConfig with audioEnabled := true, maxBitrate := 2000 }

/-- Session info for the command-line build. -/
def c10Info : SessionInfo := demoSessionInfo

/-- Environment whose wlan0 interface has only an internal address, so
resolution against it fails while eth0 (the default) works. -/
def c9Env : NetEnv :=
  { defaultInterfaceName := ("eth0")
    interfaces := fun n =>
      if n = ("eth0") then
        some [{ address := ("192.168.1.20"), family := ("IPv4"), internal := false }]
      else if n = ("wlan0") then
        some [{ address := ("127.0.0.1"), family := ("IPv4"), internal := true }]
      else none }

/-- Environment with one interface carrying an internal address, an IPv6
external address and an IPv4 external address, in that order. -/
def c9MixedEnv : NetEnv :=
  { defaultInterfaceName := ("eth1")
    interfaces := fun n =>
      if n = ("eth1") then
        some [{ address := ("127.0.0.1"), family := ("IPv4"), internal := true },
              { address := ("fe80::1"), family := ("IPv6"), internal := false },
              { address := ("10.0.0.7"), family := ("IPv4"), internal := false }]
      else none }

theorem string_append_assoc (a b c : String) : a ++ b ++ c = a ++ (b ++ c) := by
  apply String.ext
  simp [String.data_append]

theorem string_append_empty (a : String) : a ++ "" = a := by
  apply String.ext
  simp [String.data_append]

theorem scale_ne_none (s : String) : "scale=" ++ s ≠ ("none") := by
  intro h
  have hlen := congrArg String.length h
  rw [String.length_append] at hlen
  have h6 : ("scale=" : String).length = 6 := rfl
  have h4 : ("none" : String).length = 4 := rfl
  omega

/-- C7: the negotiated width is min(requested, maxWidth), the negotiated
height is min(requested, maxHeight), and on the start path the frame rate is
min(requested, maxFPS); requests at or below the caps pass through unchanged. -/
theorem C7_resolution_fps_clamp (cfg : VideoConfig) (request : SizeRequest) (fps : Nat) :
    (determineResolution cfg request).width = min request.width cfg.maxWidth ∧
    (determineResolution cfg request).height = min request.height cfg.maxHeight ∧
    clampFps cfg fps = min fps cfg.maxFPS := by
  refine ⟨?_, ?_, ?_⟩ <;>
    simp only [determineResolution, clampWidth, clampHeight, clampFps] <;>
    (split <;> omega)

/-- C6 counterexample: with the configured max bitrate 2 and min bitrate 10
(the schema does not force min below max), a requested bitrate of 5 is below
the configured min, yet the effective bitrate is the max (2), not the min (10)
the claim requires: the `else if` gives the max clamp precedence. -/
theorem C6_counterexample :
    clampVideoBitrate c6Config 5 = 2 ∧ clampVideoBitrate c6Config 5 ≠ 10 := by
  decide

/-- C6 (amended): the effective video bitrate equals the configured max when a
max is configured and the request exceeds it; it equals the configured min
when a min is configured, the request is below it and the max clamp did not
fire (the max clamp takes precedence); otherwise it equals the request. The
effective audio bitrate is clamped down to the configured max and is never
raised. -/
theorem C6_bitrate_clamp_amended (cfg : VideoConfig) (rv ra : Nat) :
    (cfg.maxBitrate ≠ 0 → rv > cfg.maxBitrate → clampVideoBitrate cfg rv = cfg.maxBitrate) ∧
    (¬(cfg.maxBitrate ≠ 0 ∧ rv > cfg.maxBitrate) → cfg.minBitrate ≠ 0 → rv < cfg.minBitrate →
      clampVideoBitrate cfg rv = cfg.minBitrate) ∧
    (¬(cfg.maxBitrate ≠ 0 ∧ rv > cfg.maxBitrate) → ¬(cfg.minBitrate ≠ 0 ∧ rv < cfg.minBitrate) →
      clampVideoBitrate cfg rv = rv) ∧
    (cfg.maxBitrate ≠ 0 → ra > cfg.maxBitrate → clampAudioBitrate cfg ra = cfg.maxBitrate) ∧
    (¬(cfg.maxBitrate ≠ 0 ∧ ra > cfg.maxBitrate) → clampAudioBitrate cfg ra = ra) ∧
    clampAudioBitrate cfg ra ≤ ra := by
  refine ⟨?_, ?_, ?_, ?_, ?_, ?_⟩
  · intro h1 h2; simp [clampVideoBitrate, h1, h2]
  · intro hn h1 h2; simp [clampVideoBitrate, hn, h1, h2]
  · intro hn1 hn2; simp [clampVideoBitrate, hn1, hn2]
  · intro h1 h2; simp [clampAudioBitrate, h1, h2]
  · intro hn; simp [clampAudioBitrate, hn]
  · simp only [clampAudioBitrate]; split <;> omega

theorem C6_bitrate_clamp_amended_witness :
    clampVideoBitrate c6MaxConfig 4000 = 2000 ∧
    clampVideoBitrate c6MinConfig 100 = 500 ∧
    clampVideoBitrate baseVideoConfig 299 = 299 ∧
    clampAudioBitrate c6MaxConfig 4000 = 2000 ∧
    clampAudioBitrate c6MaxConfig 24 = 24 :=
  ⟨(C6_bitrate_clamp_amended c6MaxConfig 4000 0).1 (by decide) (by decide),
   (C6_bitrate_clamp_amended c6MinConfig 100 0).2.1 (by decide) (by decide) (by decide),
   (C6_bitrate_clamp_amended baseVideoConfig 299 0).2.2.1 (by decide) (by decide),
   (C6_bitrate_clamp_amended c6MaxConfig 0 4000).2.2.2.1 (by decide) (by decide),
   (C6_bitrate_clamp_amended c6MaxConfig 0 24).2.2.2.2.1 (by decide)⟩

/-- C4: the flip wiring is crossed exactly as the claim describes: whenever a
filter is emitted, the vflip flag alone yields the token `hflip` before the
scale/custom filter, the hflip flag alone yields the token `vflip`, and both
flags yield the list hflip, vflip, filter. -/
theorem C4_flip_crossed (cfg : VideoConfig) (request : SizeRequest)
    (hf : effectiveFilter cfg (clampWidth cfg request.width) (clampHeight cfg request.height) ≠ ("none")) :
    ((determineResolution cfg request).videoFilter =
      joinComma (vfList cfg (clampWidth cfg request.width) (clampHeight cfg request.height))) ∧
    (cfg.vflip = true → cfg.hflip = false →
      vfList cfg (clampWidth cfg request.width) (clampHeight cfg request.height) =
        [("hflip"),
         effectiveFilter cfg (clampWidth cfg request.width) (clampHeight cfg request.height)]) ∧
    (cfg.hflip = true → cfg.vflip = false →
      vfList cfg (clampWidth cfg request.width) (clampHeight cfg request.height) =
        [("vflip"),
         effectiveFilter cfg (clampWidth cfg request.width) (clampHeight cfg request.height)]) ∧
    (cfg.vflip = true → cfg.hflip = true →
      vfList cfg (clampWidth cfg request.width) (clampHeight cfg request.height) =
        [("hflip"), ("vflip"),
         effectiveFilter cfg (clampWidth cfg request.width) (clampHeight cfg request.height)]) := by
  refine ⟨rfl, ?_, ?_, ?_⟩ <;> intro h1 h2 <;> simp [vfList, flipList, hf, h1, h2]

theorem C4_flip_crossed_witness :
    effectiveFilter c4Config (clampWidth c4Config 1920) (clampHeight c4Config 1080) ≠ ("none") ∧
    vfList c4Config (clampWidth c4Config 1920) (clampHeight c4Config 1080) =
      [("hflip"),
       effectiveFilter c4Config (clampWidth c4Config 1920) (clampHeight c4Config 1080)] :=
  ⟨by decide,
   (C4_flip_crossed c4Config { width := 1920, height := 1080 } (by decide)).2.1 rfl rfl⟩

/-- C5: a non-empty filter override that is not the literal none is emitted
verbatim after the flip prefixes; the literal none yields an empty videoFilter
string with no flip directives; an absent or empty override synthesizes a
scale directive from the aspect mode using the clamped dimensions, W giving
width:-1, H giving -1:height and the default giving width:height. -/
theorem C5_filter_determination (cfg : VideoConfig) (request : SizeRequest) :
    (∀ s, cfg.videoFilter = some s → s ≠ "" → s ≠ ("none") →
      vfList cfg (clampWidth cfg request.width) (clampHeight cfg request.height) =
        flipList cfg ++ [s]) ∧
    (cfg.videoFilter = some ("none") →
      (determineResolution cfg request).videoFilter = "") ∧
    ((cfg.videoFilter = none ∨ cfg.videoFilter = some "") →
      (vfList cfg (clampWidth cfg request.width) (clampHeight cfg request.height) =
        flipList cfg ++
          ["scale=" ++
            resolutionDirective cfg (clampWidth cfg request.width) (clampHeight cfg request.height)]) ∧
      (cfg.preserveRatioMode = some ("W") →
        resolutionDirective cfg (clampWidth cfg request.width) (clampHeight cfg request.height) =
          toString (clampWidth cfg request.width) ++ ":-1") ∧
      (cfg.preserveRatioMode = some ("H") →
        resolutionDirective cfg (clampWidth cfg request.width) (clampHeight cfg request.height) =
          "-1:" ++ toString (clampHeight cfg request.height)) ∧
      (cfg.preserveRatioMode ≠ some ("W") → cfg.preserveRatioMode ≠ some ("H") →
        resolutionDirective cfg (clampWidth cfg request.width) (clampHeight cfg request.height) =
          toString (clampWidth cfg request.width) ++ ":" ++
            toString (clampHeight cfg request.height))) := by
  refine ⟨?_, ?_, ?_⟩
  · intro s hcfg hne hnn
    have he : effectiveFilter cfg (clampWidth cfg request.width) (clampHeight cfg request.height) = s := by
      simp [effectiveFilter, hcfg, hne]
    simp [vfList, he, hnn]
  · intro hcfg
    have he : effectiveFilter cfg (clampWidth cfg request.width) (clampHeight cfg request.height) = ("none") := by
      simp [effectiveFilter, hcfg]
    have hv : vfList cfg (clampWidth cfg request.width) (clampHeight cfg request.height) = [] := by
      simp [vfList, he]
    simp [determineResolution, hv, joinComma]
  · intro hcfg
    have he : effectiveFilter cfg (clampWidth cfg request.width) (clampHeight cfg request.height) =
        "scale=" ++ resolutionDirective cfg (clampWidth cfg request.width) (clampHeight cfg request.height) := by
      rcases hcfg with h | h <;> simp [effectiveFilter, h]
    refine ⟨?_, ?_, ?_, ?_⟩
    · rw [vfList, he, if_neg (scale_ne_none _)]
    · intro hm; simp [resolutionDirective, hm]
    · intro hm; simp [resolutionDirective, hm]
    · intro h1 h2; simp [resolutionDirective, h1, h2]

theorem C5_filter_determination_witness :
    vfList c5OverrideConfig (clampWidth c5OverrideConfig 1920) (clampHeight c5OverrideConfig 1080) =
      flipList c5OverrideConfig ++ [("crop=16:9")] ∧
    (determineResolution c5NoneConfig { width := 1920, height := 1080 }).videoFilter = "" ∧
    vfList baseVideoConfig (clampWidth baseVideoConfig 1920) (clampHeight baseVideoConfig 1080) =
      flipList baseVideoConfig ++
        ["scale=" ++
          resolutionDirective baseVideoConfig (clampWidth baseVideoConfig 1920)
            (clampHeight baseVideoConfig 1080)] ∧
    resolutionDirective baseVideoConfig (clampWidth baseVideoConfig 1920)
        (clampHeight baseVideoConfig 1080) =
      toString (clampWidth baseVideoConfig 1920) ++ ":" ++
        toString (clampHeight baseVideoConfig 1080) :=
  ⟨(C5_filter_determination c5OverrideConfig { width := 1920, height := 1080 }).1
      ("crop=16:9") rfl (by decide) (by decide),
   (C5_filter_determination c5NoneConfig { width := 1920, height := 1080 }).2.1 rfl,
   ((C5_filter_determination baseVideoConfig { width := 1920, height := 1080 }).2.2 (Or.inl rfl)).1,
   ((C5_filter_determination baseVideoConfig { width := 1920, height := 1080 }).2.2
      (Or.inl rfl)).2.2.2 (by decide) (by decide)⟩

/-- C1 counterexample: set session S1 up against the fresh delegate, then
issue a stop for S1. The claim requires that after the stop no entry for S1
remains in either table, but the pending entry written by the setup is still
there: stopStream only ever deletes from the ongoing table. -/
theorem C1_counterexample :
    (stopStream c1AfterSetup ("S1")).1.pendingSessions ("S1") ≠ none := by
  decide

/-- C1 (amended): after a successful setup request the pending table holds an
entry for the identifier (and the ongoing table still holds none, provided it
held none before, since setup does not touch it); a start request finding a
pending entry moves the session into the ongoing table and deletes the
pending entry; a stop request deletes the ongoing entry provided the
supervisor stop() does not raise (when it raises, the catch skips the delete
and the entry survives), is a no-op on an identifier with no ongoing entry,
and never removes a pending entry (a session set up but never started stays
pending after stop). -/
theorem C1_session_tables_amended (env : NetEnv) (iface : Option String) (cfg : VideoConfig)
    (s : DelegateState) (out1 : DelegateState × HapPrepareResponse)
    (request : HapPrepareRequest) (vrp arp vssrc assrc : Nat)
    (sreq : StartRequest) (proc p : FfmpegProc) :
    (prepareStream env iface s request vrp arp vssrc assrc = .ok out1 →
      out1.1.pendingSessions request.sessionID ≠ none ∧
      (s.ongoingSessions request.sessionID = none →
        out1.1.ongoingSessions request.sessionID = none)) ∧
    (∀ info, s.pendingSessions sreq.sessionID = some info →
      startStream cfg s sreq proc =
        .ok
          ({ pendingSessions := fun k => if k = sreq.sessionID then none else s.pendingSessions k
             ongoingSessions := fun k => if k = sreq.sessionID then some proc else s.ongoingSessions k },
           buildStartCommand cfg sreq info) ∧
      (∀ r, startStream cfg s sreq proc = .ok r →
        r.1.ongoingSessions sreq.sessionID = some proc ∧
        r.1.pendingSessions sreq.sessionID = none)) ∧
    (∀ sid, s.ongoingSessions sid = some p → p.stopThrows = false →
      (stopStream s sid).1.ongoingSessions sid = none) ∧
    (∀ sid, s.ongoingSessions sid = none → (stopStream s sid).1.ongoingSessions sid = none) ∧
    (∀ sid k, (stopStream s sid).1.pendingSessions k = s.pendingSessions k) := by
  refine ⟨?_, ?_, ?_, ?_, ?_⟩
  · intro hok
    unfold prepareStream at hok
    rcases ha : prepareStreamAddress env request.addressVersion iface with e | a
    · rw [ha] at hok; cases hok
    · rw [ha] at hok
      cases hok
      constructor
      · simp
      · intro hnone; simpa using hnone
  · intro info hinfo
    constructor
    · simp [startStream, hinfo]
    · intro r hr
      simp only [startStream, hinfo] at hr
      cases hr
      constructor <;> simp
  · intro sid h1 h2
    simp [stopStream, h1, h2]
  · intro sid h
    simp [stopStream, h]
  · intro sid k
    rcases ho : s.ongoingSessions sid with _ | q
    · simp [stopStream, ho]
    · rcases ht : q.stopThrows <;> simp [stopStream, ho, ht]

theorem C1_session_tables_amended_witness :
    c1AfterSetup.pendingSessions ("S1") ≠ none ∧
    c1AfterSetup.ongoingSessions ("S1") = none ∧
    (c1StartedState.ongoingSessions ("S1") = some procA ∧
      c1StartedState.pendingSessions ("S1") = none) ∧
    (stopStream c8OkState ("S1")).1.ongoingSessions ("S1") = none ∧
    (stopStream emptyDelegateState ("S1")).1.ongoingSessions ("S1") = none ∧
    (stopStream c1AfterSetup ("S1")).1.pendingSessions ("S1") =
      c1AfterSetup.pendingSessions ("S1") :=
  ⟨((C1_session_tables_amended demoEnv none baseVideoConfig emptyDelegateState
      (c1AfterSetup, c1SetupResponse) demoPrepareRequest 61000 61001 1111 2222
      demoStartRequest procA procA).1 rfl).1,
   ((C1_session_tables_amended demoEnv none baseVideoConfig emptyDelegateState
      (c1AfterSetup, c1SetupResponse) demoPrepareRequest 61000 61001 1111 2222
      demoStartRequest procA procA).1 rfl).2 rfl,
   ((C1_session_tables_amended demoEnv none baseVideoConfig c1RunState
      (c1AfterSetup, c1SetupResponse) demoPrepareRequest 61000 61001 1111 2222
      demoStartRequest procA procA).2.1 demoSessionInfo rfl).2
      (c1StartedState, c1StartedCmd) rfl,
   (C1_session_tables_amended demoEnv none baseVideoConfig c8OkState
      (c1AfterSetup, c1SetupResponse) demoPrepareRequest 61000 61001 1111 2222
      demoStartRequest procA procA).2.2.1 ("S1") rfl rfl,
   (C1_session_tables_amended demoEnv none baseVideoConfig emptyDelegateState
      (c1AfterSetup, c1SetupResponse) demoPrepareRequest 61000 61001 1111 2222
      demoStartRequest procA procA).2.2.2.1 ("S1") rfl,
   (C1_session_tables_amended demoEnv none baseVideoConfig c1AfterSetup
      (c1AfterSetup, c1SetupResponse) demoPrepareRequest 61000 61001 1111 2222
      demoStartRequest procA procA).2.2.2.2 ("S1") ("S1")⟩

/-- C2: a start request whose identifier has no pending entry crashes instead
of being rejected: line 263 yields undefined and building ffmpegVideoStream at
line 305 reads videoSSRC of undefined, throwing a TypeError that propagates
out of handleStreamRequest. Evaluated here at the concrete failing input
(fresh delegate, start for S1 with no prior setup). -/
theorem C2_start_without_pending_crashes :
    handleStreamRequest baseVideoConfig emptyDelegateState
        (StreamRequestKind.start demoStartRequest) procA = .error JsError.typeError ∧
    startStream baseVideoConfig emptyDelegateState demoStartRequest procA =
      .error JsError.typeError := by
  constructor <;> rfl

/-- C8 counterexample: when the ongoing supervisor for S1 raises from stop(),
the catch block skips the delete, the entry survives, and a second stop call
invokes the supervisor termination again: two termination attempts, not at
most one as the claim requires. -/
theorem C8_counterexample :
    ¬ ((stopStream c8ThrowState ("S1")).2 +
        (stopStream (stopStream c8ThrowState ("S1")).1 ("S1")).2 ≤ 1) := by
  decide

/-- C8 (amended): provided the supervisor stop() does not raise, stopping
twice invokes termination exactly once, the second call invokes none and the
entry is gone; stopping an identifier that was never started invokes no
termination, produces no error (stopStream is total: its catch swallows
everything) and leaves both tables pointwise unchanged. -/
theorem C8_stop_idempotent_amended (s : DelegateState) (sid : String) (p : FfmpegProc) :
    (s.ongoingSessions sid = some p → p.stopThrows = false →
      (stopStream s sid).2 = 1 ∧
      (stopStream (stopStream s sid).1 sid).2 = 0 ∧
      (stopStream (stopStream s sid).1 sid).1.ongoingSessions sid = none) ∧
    (s.ongoingSessions sid = none →
      (stopStream s sid).2 = 0 ∧
      (∀ k, (stopStream s sid).1.ongoingSessions k = s.ongoingSessions k) ∧
      (∀ k, (stopStream s sid).1.pendingSessions k = s.pendingSessions k)) := by
  constructor
  · intro h1 h2
    refine ⟨by simp [stopStream, h1, h2], ?_, ?_⟩ <;>
      simp [stopStream, h1, h2]
  · intro h
    refine ⟨by simp [stopStream, h], ?_, ?_⟩
    · intro k
      by_cases hk : k = sid <;> simp [stopStream, h, hk]
    · intro k
      simp [stopStream, h]

theorem C8_stop_idempotent_amended_witness :
    ((stopStream c8OkState ("S1")).2 = 1 ∧
      (stopStream (stopStream c8OkState ("S1")).1 ("S1")).2 = 0 ∧
      (stopStream (stopStream c8OkState ("S1")).1 ("S1")).1.ongoingSessions ("S1") = none) ∧
    (stopStream emptyDelegateState ("S2")).2 = 0 ∧
    (stopStream emptyDelegateState ("S2")).1.ongoingSessions ("S2") =
      emptyDelegateState.ongoingSessions ("S2") ∧
    (stopStream emptyDelegateState ("S2")).1.pendingSessions ("S1") =
      emptyDelegateState.pendingSessions ("S1") :=
  ⟨(C8_stop_idempotent_amended c8OkState ("S1") procA).1 rfl rfl,
   ((C8_stop_idempotent_amended emptyDelegateState ("S2") procA).2 rfl).1,
   ((C8_stop_idempotent_amended emptyDelegateState ("S2") procA).2 rfl).2.1 ("S2"),
   ((C8_stop_idempotent_amended emptyDelegateState ("S2") procA).2 rfl).2.2 ("S1")⟩

/-- C3 counterexample: a snapshot whose capture process fails (error event
fired, exit code 1, no output) still completes with a success result carrying
the empty image buffer: the close handler at line 180 invokes the callback
with the accumulated stdout unconditionally, and the error handler at line
176 only logs. -/
theorem C3_counterexample :
    handleSnapshotRequest c3FailBehavior = SnapshotCallbackResult.success [] := by
  decide

/-- C3 (amended): only a synchronous spawn exception is surfaced to the
snapshot callback as an error (and without any accumulated diagnostic text,
which the snapshot path never collects); when the process spawned, the
callback fires with a success result and whatever stdout bytes accumulated
(possibly none) as soon as close fires, regardless of exit code or error
events; when close never fires the callback is never invoked. -/
theorem C3_snapshot_callback_amended (beh : SnapshotProcBehavior) :
    (∀ e, beh.spawnThrow = some e → handleSnapshotRequest beh = .withError e) ∧
    (beh.spawnThrow = none → beh.closes = true →
      handleSnapshotRequest beh = .success beh.stdoutChunks.flatten) ∧
    (beh.spawnThrow = none → beh.closes = false →
      handleSnapshotRequest beh = .notCalled) := by
  refine ⟨?_, ?_, ?_⟩
  · intro e h; simp [handleSnapshotRequest, h]
  · intro h1 h2; simp [handleSnapshotRequest, h1, h2]
  · intro h1 h2; simp [handleSnapshotRequest, h1, h2]

theorem C3_snapshot_callback_amended_witness :
    handleSnapshotRequest c3SpawnThrowBehavior =
      SnapshotCallbackResult.withError ("spawn EACCES") ∧
    handleSnapshotRequest c3OkBehavior =
      SnapshotCallbackResult.success [255, 216, 255, 217] ∧
    handleSnapshotRequest c3NoCloseBehavior = SnapshotCallbackResult.notCalled :=
  ⟨(C3_snapshot_callback_amended c3SpawnThrowBehavior).1 ("spawn EACCES") rfl,
   (C3_snapshot_callback_amended c3OkBehavior).2.1 rfl rfl,
   (C3_snapshot_callback_amended c3NoCloseBehavior).2.2 rfl rfl⟩

/-- C9: with no interface name the default outbound interface is used; among
an interface's non-internal addresses the one matching the requested family
is preferred, the first non-internal address of any family is the fallback,
and an interface with no non-internal address yields an error. At the setup
caller, a configured preference whose resolution fails is retried once with
the default interface after logging a warning (the Bool); with no preference
the failure propagates unchanged. -/
theorem C9_address_resolution (env : NetEnv) (v : AddrVersion) (s : String)
    (l : List NetAddrInfo) :
    (getIpAddress env v none = getIpAddress env v (some env.defaultInterfaceName)) ∧
    (s ≠ "" → env.interfaces s = some l →
      (∀ i, (nonInternal l).find? (fun a => a.family == famString v) = some i →
        getIpAddress env v (some s) = .ok i.address) ∧
      ((nonInternal l).find? (fun a => a.family == famString v) = none →
        ∀ i t, nonInternal l = i :: t → getIpAddress env v (some s) = .ok i.address) ∧
      (nonInternal l = [] → getIpAddress env v (some s) = .error (addrErrMsg s))) ∧
    (s ≠ "" → ∀ e, getIpAddress env v (some s) = .error e →
      prepareStreamAddress env v (some s) =
        (match getIpAddress env v none with
         | .ok a => .ok (a, true)
         | .error e2 => .error e2)) ∧
    (∀ e, getIpAddress env v none = .error e → prepareStreamAddress env v none = .error e) := by
  refine ⟨?_, ?_, ?_, ?_⟩
  · simp [getIpAddress]
  · intro hs hl
    refine ⟨?_, ?_, ?_⟩
    · intro i hfind
      simp [getIpAddress, hs, hl, pickAddress, hfind]
    · intro hfind i t hcons
      rw [hcons] at hfind
      simp [getIpAddress, hs, hl, pickAddress, hcons, hfind]
    · intro hempty
      simp [getIpAddress, hs, hl, pickAddress, hempty]
  · intro hs e he
    simp [prepareStreamAddress, he, hs]
  · intro e he
    simp [prepareStreamAddress, he]

theorem C9_address_resolution_witness :
    getIpAddress c9MixedEnv .ipv4 none = getIpAddress c9MixedEnv .ipv4 (some ("eth1")) ∧
    getIpAddress c9MixedEnv .ipv6 (some ("eth1")) = .ok ("fe80::1") ∧
    getIpAddress c9Env .ipv6 (some ("eth0")) = .ok ("192.168.1.20") ∧
    getIpAddress c9Env .ipv4 (some ("wlan0")) = .error (addrErrMsg ("wlan0")) ∧
    prepareStreamAddress c9Env .ipv4 (some ("wlan0")) = .ok (("192.168.1.20"), true) ∧
    prepareStreamAddress c9EmptyEnv .ipv4 none = .error (addrErrMsg ("eth9")) :=
  ⟨(C9_address_resolution c9MixedEnv .ipv4 ("eth1") []).1,
   ((C9_address_resolution c9MixedEnv .ipv6 ("eth1")
      [{ address := ("127.0.0.1"), family := ("IPv4"), internal := true },
       { address := ("fe80::1"), family := ("IPv6"), internal := false },
       { address := ("10.0.0.7"), family := ("IPv4"), internal := false }]).2.1
      (by decide) rfl).1
      { address := ("fe80::1"), family := ("IPv6"), internal := false } (by decide),
   ((C9_address_resolution c9Env .ipv6 ("eth0")
      [{ address := ("192.168.1.20"), family := ("IPv4"), internal := false }]).2.1
      (by decide) rfl).2.1 (by decide)
      { address := ("192.168.1.20"), family := ("IPv4"), internal := false } [] (by decide),
   ((C9_address_resolution c9Env .ipv4 ("wlan0")
      [{ address := ("127.0.0.1"), family := ("IPv4"), internal := true }]).2.1
      (by decide) rfl).2.2 (by decide),
   (C9_address_resolution c9Env .ipv4 ("wlan0") []).2.2.1 (by decide)
      (addrErrMsg ("wlan0")) rfl,
   (C9_address_resolution c9EmptyEnv .ipv4 ("x") []).2.2.2 (addrErrMsg ("eth9")) rfl⟩

/-- C10: in the built command line the video segment carries bitrate, bufsize
(exactly twice the clamped video bitrate) and maxrate with k suffixes; the
video srtp destination carries rtcpport and localrtcpport both equal to the
remote video port and the configured packet size defaulting to 1316; the
audio segment uses the clamped audio bitrate for both bitrate and bufsize and
forces one channel; the audio srtp destination uses the fixed packet size
188; and when audio is enabled the full command contains the audio segment
after the video segment. -/
theorem C10_command_constants (cfg : VideoConfig) (request : StartRequest) (info : SessionInfo) :
    (∃ p q, ffmpegVideoArgs cfg request =
      p ++ " -b:v " ++ toString (clampVideoBitrate cfg request.video.max_bit_rate) ++ "k" ++
        " -bufsize " ++ toString (2 * clampVideoBitrate cfg request.video.max_bit_rate) ++ "k" ++
        " -maxrate " ++ toString (clampVideoBitrate cfg request.video.max_bit_rate) ++ "k" ++ q) ∧
    (∃ p, ffmpegVideoStream cfg info =
      p ++ " srtp://" ++ info.address ++ ":" ++ toString info.videoPort ++
        "?rtcpport=" ++ toString info.videoPort ++ "&localrtcpport=" ++ toString info.videoPort ++
        "&pkt_size=" ++ toString (jsOrNat cfg.packetSize 1316)) ∧
    (∃ p q, ffmpegAudioArgs cfg request =
      p ++ " -b:a " ++ toString (clampAudioBitrate cfg request.audioInfo.max_bit_rate) ++ "k" ++
        " -bufsize " ++ toString (clampAudioBitrate cfg request.audioInfo.max_bit_rate) ++ "k" ++
        " -ac 1" ++ q) ∧
    (∃ p, ffmpegAudioStream info =
      p ++ " srtp://" ++ info.address ++ ":" ++ toString info.audioPort ++
        "?rtcpport=" ++ toString info.audioPort ++ "&localrtcpport=" ++ toString info.audioPort ++
        "&pkt_size=188") ∧
    (cfg.audioEnabled = true →
      ∃ q, buildStartCommand cfg request info =
        cfg.source ++ ffmpegVideoArgs cfg request ++ ffmpegVideoStream cfg info ++
          ffmpegAudioArgs cfg request ++ ffmpegAudioStream info ++ q) := by
  refine ⟨?_, ?_, ?_, ?_, ?_⟩
  · refine
      ⟨" -map " ++ jsOr cfg.mapvideo ("0:0") ++
        " -vcodec " ++ jsOr cfg.vcodec ("libx264") ++
        " -pix_fmt yuv420p" ++
        " -r " ++ toString (clampFps cfg request.video.fps) ++
        " -f rawvideo" ++
        " " ++ jsOr cfg.additionalCommandline ("-preset ultrafast -tune zerolatency") ++
        (if jsOr cfg.vcodec ("libx264") ≠ ("copy") ∧
            (determineResolution cfg
              { width := request.video.width, height := request.video.height }).videoFilter ≠ "" then
          " -vf " ++
            (determineResolution cfg
              { width := request.video.width, height := request.video.height }).videoFilter
        else ""),
       " -payload_type " ++ toString request.video.pt, ?_⟩
    simp only [ffmpegVideoArgs, string_append_assoc]
  · refine
      ⟨" -ssrc " ++ toString info.videoSSRC ++
        " -f rtp" ++
        " -srtp_out_suite AES_CM_128_HMAC_SHA1_80" ++
        " -srtp_out_params " ++ base64Encode info.videoSRTP, ?_⟩
    simp only [ffmpegVideoStream, string_append_assoc]
  · refine
      ⟨" -map " ++ jsOr cfg.mapaudioCfg ("0:1") ++
        " -acodec libfdk_aac" ++
        " -profile:a aac_eld" ++
        " -flags +global_header" ++
        " -f null" ++
        " -ar " ++ toString request.audioInfo.sample_rate ++ "k",
       " -payload_type " ++ toString request.audioInfo.pt, ?_⟩
    simp only [ffmpegAudioArgs, string_append_assoc]
  · refine
      ⟨" -ssrc " ++ toString info.audioSSRC ++
        " -f rtp" ++
        " -srtp_out_suite AES_CM_128_HMAC_SHA1_80" ++
        " -srtp_out_params " ++ base64Encode info.audioSRTP, ?_⟩
    simp only [ffmpegAudioStream, string_append_assoc]
  · intro ha
    cases hd : cfg.debug
    · refine ⟨"", ?_⟩
      simp only [buildStartCommand, ha, hd, if_true, if_false, Bool.false_eq_true,
        string_append_assoc, string_append_empty]
    · refine ⟨" -loglevel level+verbose", ?_⟩
      simp only [buildStartCommand, ha, hd, if_true, if_false,
        string_append_assoc, string_append_empty]

theorem C10_command_constants_witness :
    c10Config.audioEnabled = true ∧
    (∃ q, buildStartCommand c10Config demoStartRequest c10Info =
      c10Config.source ++ ffmpegVideoArgs c10Config demoStartRequest ++
        ffmpegVideoStream c10Config c10Info ++
        ffmpegAudioArgs c10Config demoStartRequest ++ ffmpegAudioStream c10Info ++ q) :=
  ⟨rfl, (C10_command_constants c10Config demoStartRequest c10Info).2.2.2.2 rfl⟩

end CameraFfmpeg
